import Mathlib

/-!
Verification development for the Attendance System repository.

The development shallowly embeds the pure computation core of the system:

* `src/lib/utils.ts` — time utilities (`differenceInMinutes`, `parseTimeString`);
* `src/lib/attendance/work-hours-calculator.ts` — `calculateWorkHours` and its
  helpers `calculateScheduledMinutes`, `calculateTimingAnomalies`;
* `src/lib/attendance/state-machine.ts` — the guarded transition table,
  `ClockStateMachine.canTransition` and the state derivation
  `ClockStateMachine.fromAttendance`;
* `src/lib/attendance/attendance-service.ts` — the pure decision core of
  `AttendanceService.clockOut` (reads and writes are abstracted into the
  function's input and its returned outcome);
* `src/lib/payroll/payroll-service.ts` — the per-employee computation of
  `PayrollService.calculatePayroll` together with `calculateOvertimePay`,
  `calculateNightMinutes` and `getScheduledMinutes`.

JavaScript `Date` objects are embedded as records of the observations the code
makes of them (`getTime()` in milliseconds, `getHours()`, `getMinutes()`, …).
JavaScript numbers are embedded as `Int` where the source only ever produces
integers (all the minute arithmetic, which uses `Math.floor`) and as `Rat`
where the source performs fractional arithmetic (the payroll money amounts).
`null`/`undefined` become `Option`.
-/

/-- Embedding of a JavaScript `Date` as the observations the attendance code
makes of it: `ms` is `getTime()`, `hours` is `getHours()`, `minutes` is
`getMinutes()`. -/
structure JSDate where
  ms : Int
  hours : Int
  minutes : Int
deriving DecidableEq, Repr

/-- `src/lib/utils.ts` `differenceInMinutes`:
`Math.floor((end.getTime() - start.getTime()) / (1000 * 60))`.
`Int.fdiv` is floor division, matching `Math.floor` of the real quotient. -/
def differenceInMinutes (endDate startDate : JSDate) : Int :=
  (endDate.ms - startDate.ms).fdiv (1000 * 60)

/-- JavaScript `Number(s)` on the decimal-digit strings the shift definitions
store; any non-digit component (where the source would produce `NaN`) is
mapped to 0. -/
def jsNumber (s : List Char) : Int :=
  if s ≠ [] ∧ s.all Char.isDigit then
    s.foldl (fun n c => n * 10 + ((c.toNat : Int) - 48)) 0
  else 0

/-- `src/lib/utils.ts` `parseTimeString`: splits `"HH:MM"` on `":"` and
converts both parts with `Number`. The split is performed on the character
list of the string. -/
def parseTimeString (timeStr : String) : Int × Int :=
  match (timeStr.toList.splitOn ':').map jsNumber with
  | [h, m] => (h, m)
  | _ => (0, 0)

/-- Break type enum from the Prisma schema (`REST | MEAL | PERSONAL | EMERGENCY`). -/
inductive BreakType where
  | REST
  | MEAL
  | PERSONAL
  | EMERGENCY
deriving DecidableEq, Repr

/-- A break row as consumed by the calculator: `startTime`, nullable `endTime`,
`type`. -/
structure BreakRec where
  startTime : JSDate
  endTime : Option JSDate
  type : BreakType
deriving DecidableEq, Repr

/-- The `ShiftType` fields the attendance core reads: `startTime`/`endTime`
(HH:MM strings), `breakDuration`, `maxBreakCount`, `isSplit`, and the nullable
split-break window. -/
structure ShiftType where
  startTime : String
  endTime : String
  breakDuration : Int
  maxBreakCount : Int
  isSplit : Bool
  splitBreakStart : Option String
  splitBreakEnd : Option String
deriving DecidableEq, Repr

/-- Input of `calculateWorkHours` (work-hours-calculator.ts `WorkHoursInput`). -/
structure WorkHoursInput where
  clockIn : JSDate
  clockOut : JSDate
  clockIn2 : Option JSDate
  clockOut2 : Option JSDate
  breaks : List BreakRec
  shiftType : Option ShiftType
deriving DecidableEq, Repr

/-- Per-break detail entry of the result. -/
structure BreakDetail where
  startTime : JSDate
  endTime : Option JSDate
  durationMinutes : Int
  type : BreakType
deriving DecidableEq, Repr

/-- Result of `calculateWorkHours` (work-hours-calculator.ts `WorkHoursResult`). -/
structure WorkHoursResult where
  totalMinutes : Int
  breakMinutes : Int
  netWorkMinutes : Int
  regularMinutes : Int
  overtimeMinutes : Int
  segment1Minutes : Int
  segment2Minutes : Int
  splitBreakMinutes : Int
  earlyClockIn : Int
  lateClockIn : Int
  earlyClockOut : Int
  lateClockOut : Int
  hasUnendedBreak : Bool
  exceedsMaxBreakTime : Bool
  requiresReview : Bool
  breakDetails : List BreakDetail
deriving DecidableEq, Repr

/-- work-hours-calculator.ts `calculateScheduledMinutes`: shift end minus shift
start in minutes, plus 24h if negative (overnight), minus the split-break
window when the shift is split with both bounds present, minus the expected
break duration. -/
def calculateScheduledMinutes (shiftType : ShiftType) : Int :=
  let start := parseTimeString shiftType.startTime
  let e := parseTimeString shiftType.endTime
  let totalMinutes := e.1 * 60 + e.2 - (start.1 * 60 + start.2)
  let totalMinutes := if totalMinutes < 0 then totalMinutes + 24 * 60 else totalMinutes
  let totalMinutes :=
    match shiftType.splitBreakStart, shiftType.splitBreakEnd with
    | some sbs, some sbe =>
      if shiftType.isSplit then
        let splitStart := parseTimeString sbs
        let splitEnd := parseTimeString sbe
        totalMinutes - (splitEnd.1 * 60 + splitEnd.2 - (splitStart.1 * 60 + splitStart.2))
      else totalMinutes
    | _, _ => totalMinutes
  totalMinutes - shiftType.breakDuration

/-- The four timing-anomaly counters of `calculateTimingAnomalies`. -/
structure TimingAnomalies where
  earlyClockIn : Int
  lateClockIn : Int
  earlyClockOut : Int
  lateClockOut : Int
deriving DecidableEq, Repr

/-- work-hours-calculator.ts `calculateTimingAnomalies`: clock-time-of-day
comparison of actual clock-in/out against the scheduled shift start/end, each
clamped at 0; all zero when no shift is supplied. -/
def calculateTimingAnomalies (clockIn clockOut : JSDate)
    (shiftType : Option ShiftType) : TimingAnomalies :=
  match shiftType with
  | none => ⟨0, 0, 0, 0⟩
  | some st =>
    let scheduledStart := parseTimeString st.startTime
    let scheduledEnd := parseTimeString st.endTime
    let clockInMinutes := clockIn.hours * 60 + clockIn.minutes
    let clockOutMinutes := clockOut.hours * 60 + clockOut.minutes
    let schedStartMinutes := scheduledStart.1 * 60 + scheduledStart.2
    let schedEndMinutes := scheduledEnd.1 * 60 + scheduledEnd.2
    { earlyClockIn := max 0 (schedStartMinutes - clockInMinutes)
      lateClockIn := max 0 (clockInMinutes - schedStartMinutes)
      earlyClockOut := max 0 (schedEndMinutes - clockOutMinutes)
      lateClockOut := max 0 (clockOutMinutes - schedEndMinutes) }

/-- Duration of one break as computed inside the `calculateWorkHours` loop:
closed breaks use their `endTime`, open breaks use `now` (the source calls
`new Date()` there; the clock is passed explicitly here). -/
def breakDurationMinutes (now : JSDate) (b : BreakRec) : Int :=
  match b.endTime with
  | some e => differenceInMinutes e b.startTime
  | none => differenceInMinutes now b.startTime

/-- work-hours-calculator.ts `calculateWorkHours`. The source's single loop
over `breaks` accumulates the break-minute sum, the open-break flag and the
detail list; these are rendered as a `map`/`sum`, an `any` and a `map` over the
same list. `now` is the `new Date()` the source takes for open breaks. -/
def calculateWorkHours (input : WorkHoursInput) (now : JSDate) : WorkHoursResult :=
  let segment1Minutes := differenceInMinutes input.clockOut input.clockIn
  let segment2Minutes :=
    match input.clockIn2, input.clockOut2 with
    | some ci2, some co2 => differenceInMinutes co2 ci2
    | _, _ => 0
  let breakMinutes := (input.breaks.map (breakDurationMinutes now)).sum
  let hasUnendedBreak := input.breaks.any (fun b => b.endTime.isNone)
  let breakDetails := input.breaks.map (fun b =>
    { startTime := b.startTime
      endTime := b.endTime
      durationMinutes := breakDurationMinutes now b
      type := b.type : BreakDetail })
  let splitBreakMinutes :=
    match input.shiftType, input.clockIn2 with
    | some st, some ci2 =>
      if st.isSplit then differenceInMinutes ci2 input.clockOut else 0
    | _, _ => 0
  let totalMinutes := segment1Minutes + segment2Minutes
  let netWorkMinutes := totalMinutes - breakMinutes
  let regOt :=
    match input.shiftType with
    | some st =>
      let scheduledMinutes := calculateScheduledMinutes st
      if netWorkMinutes > scheduledMinutes then
        (scheduledMinutes, netWorkMinutes - scheduledMinutes)
      else (netWorkMinutes, 0)
    | none => (netWorkMinutes, 0)
  let anomalies := calculateTimingAnomalies input.clockIn input.clockOut input.shiftType
  let maxBreakMinutes :=
    match input.shiftType with
    | some st => st.breakDuration
    | none => 30
  let exceedsMaxBreakTime :=
    decide ((breakMinutes : ℚ) > (maxBreakMinutes : ℚ) * 1.5)
  let requiresReview :=
    hasUnendedBreak || exceedsMaxBreakTime ||
      decide (anomalies.lateClockIn > 15) || decide (anomalies.earlyClockOut > 0) ||
      decide (regOt.2 > 120)
  { totalMinutes := totalMinutes
    breakMinutes := breakMinutes
    netWorkMinutes := netWorkMinutes
    regularMinutes := regOt.1
    overtimeMinutes := regOt.2
    segment1Minutes := segment1Minutes
    segment2Minutes := segment2Minutes
    splitBreakMinutes := splitBreakMinutes
    earlyClockIn := anomalies.earlyClockIn
    lateClockIn := anomalies.lateClockIn
    earlyClockOut := anomalies.earlyClockOut
    lateClockOut := anomalies.lateClockOut
    hasUnendedBreak := hasUnendedBreak
    exceedsMaxBreakTime := exceedsMaxBreakTime
    requiresReview := requiresReview
    breakDetails := breakDetails }

/-! ### Clock state machine (state-machine.ts) -/

/-- state-machine.ts `ClockState`. -/
inductive ClockState where
  | NOT_CLOCKED_IN
  | WORKING
  | ON_BREAK
  | CLOCKED_OUT
  | SPLIT_BREAK
deriving DecidableEq, Repr, BEq

/-- state-machine.ts `ClockAction`. -/
inductive ClockAction where
  | CLOCK_IN
  | CLOCK_OUT
  | START_BREAK
  | END_BREAK
  | CLOCK_IN_SEGMENT_2
  | CLOCK_OUT_SEGMENT_2
deriving DecidableEq, Repr, BEq

/-- The string value of a `ClockState` enum member (TypeScript string enum). -/
def ClockState.toName : ClockState → String
  | .NOT_CLOCKED_IN => "NOT_CLOCKED_IN"
  | .WORKING => "WORKING"
  | .ON_BREAK => "ON_BREAK"
  | .CLOCKED_OUT => "CLOCKED_OUT"
  | .SPLIT_BREAK => "SPLIT_BREAK"

/-- The string value of a `ClockAction` enum member. -/
def ClockAction.toName : ClockAction → String
  | .CLOCK_IN => "CLOCK_IN"
  | .CLOCK_OUT => "CLOCK_OUT"
  | .START_BREAK => "START_BREAK"
  | .END_BREAK => "END_BREAK"
  | .CLOCK_IN_SEGMENT_2 => "CLOCK_IN_SEGMENT_2"
  | .CLOCK_OUT_SEGMENT_2 => "CLOCK_OUT_SEGMENT_2"

/-- Prisma `AttendanceStatus` enum. -/
inductive AttendanceStatus where
  | CLOCKED_IN
  | ON_BREAK
  | CLOCKED_OUT
  | PENDING_REVIEW
  | APPROVED
  | ABSENT
  | REJECTED
deriving DecidableEq, Repr, BEq

/-- The fields of an `Attendance` row (with its breaks included) that the
state machine and the clock-out orchestrator read. -/
structure Attendance where
  status : AttendanceStatus
  clockIn : Option JSDate
  clockOut : Option JSDate
  clockIn2 : Option JSDate
  clockOut2 : Option JSDate
  breaks : List BreakRec
deriving DecidableEq, Repr

/-- A `Schedule` row with its `shiftType` included, as the guards consume it. -/
structure Schedule where
  shiftType : ShiftType
deriving DecidableEq, Repr

/-- state-machine.ts `ClockContext`, restricted to the fields the guards read
(`attendance` with breaks, `schedule` with shift type). -/
structure ClockContext where
  attendance : Option Attendance
  schedule : Option Schedule

/-- The `{allowed, reason?}` record returned by guards and `canTransition`. -/
structure TransitionResult where
  allowed : Bool
  reason : Option String
deriving DecidableEq, Repr

/-- state-machine.ts `StateTransition` (`from` and `to` are Lean keywords,
hence `fromStates`/`toState`). -/
structure StateTransition where
  fromStates : List ClockState
  toState : ClockState
  action : ClockAction
  guard : Option (ClockContext → TransitionResult)

/-- state-machine.ts module-level `transitions` table, guards included. -/
def transitions : List StateTransition :=
  [ { fromStates := [ClockState.NOT_CLOCKED_IN]
      toState := ClockState.WORKING
      action := ClockAction.CLOCK_IN
      guard := none }
  , { fromStates := [ClockState.WORKING]
      toState := ClockState.ON_BREAK
      action := ClockAction.START_BREAK
      guard := some (fun ctx =>
        let breakCount : Int :=
          match ctx.attendance with
          | some att => att.breaks.length
          | none => 0
        let maxBreaks : Int :=
          match ctx.schedule with
          | some sch => sch.shiftType.maxBreakCount
          | none => 3
        if breakCount ≥ maxBreaks then
          { allowed := false
            reason := some ("已達到最大休息次數 (" ++ toString maxBreaks ++ ")") }
        else { allowed := true, reason := none }) }
  , { fromStates := [ClockState.ON_BREAK]
      toState := ClockState.WORKING
      action := ClockAction.END_BREAK
      guard := none }
  , { fromStates := [ClockState.WORKING]
      toState := ClockState.CLOCKED_OUT
      action := ClockAction.CLOCK_OUT
      guard := some (fun ctx =>
        let unendedBreak : Option BreakRec :=
          match ctx.attendance with
          | some att => att.breaks.find? (fun b => b.endTime.isNone)
          | none => none
        match unendedBreak with
        | some _ => { allowed := false, reason := some "請先結束休息再下班打卡" }
        | none => { allowed := true, reason := none }) }
  , { fromStates := [ClockState.CLOCKED_OUT]
      toState := ClockState.SPLIT_BREAK
      action := ClockAction.CLOCK_OUT
      guard := some (fun ctx =>
        let isSplit :=
          match ctx.schedule with
          | some sch => sch.shiftType.isSplit
          | none => false
        if !isSplit then { allowed := false, reason := some "非分段班制" }
        else { allowed := true, reason := none }) }
  , { fromStates := [ClockState.SPLIT_BREAK]
      toState := ClockState.WORKING
      action := ClockAction.CLOCK_IN_SEGMENT_2
      guard := none }
  , { fromStates := [ClockState.WORKING]
      toState := ClockState.CLOCKED_OUT
      action := ClockAction.CLOCK_OUT_SEGMENT_2
      guard := some (fun ctx =>
        let hasClockIn2 :=
          match ctx.attendance with
          | some att => att.clockIn2.isSome
          | none => false
        if !hasClockIn2 then { allowed := false, reason := some "尚未開始第二段班" }
        else { allowed := true, reason := none }) }
  ]

/-- The transition lookup both `canTransition` and `getNextState` perform:
`transitions.find(t => t.action === action && t.from.includes(this.state))`. -/
def findTransition (state : ClockState) (action : ClockAction) : Option StateTransition :=
  transitions.find? (fun t => t.action == action && t.fromStates.contains state)

/-- state-machine.ts `ClockStateMachine.canTransition`; the machine's `state`
and `context` fields are explicit arguments. -/
def canTransition (state : ClockState) (ctx : ClockContext)
    (action : ClockAction) : TransitionResult :=
  match findTransition state action with
  | none =>
    { allowed := false
      reason := some ("無法從 " ++ state.toName ++ " 狀態執行 " ++ action.toName) }
  | some t =>
    match t.guard with
    | some g => g ctx
    | none => { allowed := true, reason := none }

/-- state-machine.ts `ClockStateMachine.getNextState`. -/
def getNextState (state : ClockState) (action : ClockAction) : Option ClockState :=
  (findTransition state action).map (fun t => t.toState)

/-- The state-derivation part of `ClockStateMachine.fromAttendance`: maps the
persisted attendance row (or its absence) and the day's schedule to the
current `ClockState`. -/
def deriveState (attendance : Option Attendance) (schedule : Option Schedule) : ClockState :=
  match attendance with
  | none => ClockState.NOT_CLOCKED_IN
  | some att =>
    if att.status = AttendanceStatus.ON_BREAK then ClockState.ON_BREAK
    else if att.status = AttendanceStatus.CLOCKED_OUT then
      match schedule with
      | some sch =>
        if sch.shiftType.isSplit && att.clockIn2.isNone then ClockState.SPLIT_BREAK
        else ClockState.CLOCKED_OUT
      | none => ClockState.CLOCKED_OUT
    else if att.status = AttendanceStatus.CLOCKED_IN then ClockState.WORKING
    else ClockState.CLOCKED_OUT

/-! ### Clock-out orchestrator (attendance-service.ts `AttendanceService.clockOut`)

The persistence reads and writes are abstracted: the function takes the loaded
attendance/schedule snapshot and `now`, and returns either the failure message
or the persisted status together with the computed work hours. -/

/-- Outcome of `AttendanceService.clockOut`: `failure` carries the returned
message of an unsuccessful call; `success` carries the `status` written to the
attendance row and the `WorkHoursResult` whose numeric fields are persisted. -/
inductive ClockOutOutcome where
  | failure (message : String)
  | success (status : AttendanceStatus) (workHours : WorkHoursResult)
deriving DecidableEq, Repr

/-- attendance-service.ts `AttendanceService.clockOut`, decision core: missing
attendance short-circuits; the state machine (state derived by
`fromAttendance`) must allow `CLOCK_OUT`; on success the work hours are
computed and the persisted status is `PENDING_REVIEW` when `requiresReview`
and `CLOCKED_OUT` otherwise. The source reads `attendance.clockIn!` with a
non-null assertion; the embedding defaults a (never occurring) null to `now`. -/
def clockOut (attendance : Option Attendance) (schedule : Option Schedule)
    (now : JSDate) : ClockOutOutcome :=
  match attendance with
  | none => ClockOutOutcome.failure "尚未打卡上班"
  | some att =>
    let state := deriveState (some att) schedule
    let ctx : ClockContext := { attendance := some att, schedule := schedule }
    let check := canTransition state ctx ClockAction.CLOCK_OUT
    if check.allowed then
      let workHours := calculateWorkHours
        { clockIn := att.clockIn.getD now
          clockOut := now
          clockIn2 := att.clockIn2
          clockOut2 := att.clockOut2
          breaks := att.breaks
          shiftType := schedule.map (fun s => s.shiftType) } now
      let status :=
        if workHours.requiresReview then AttendanceStatus.PENDING_REVIEW
        else AttendanceStatus.CLOCKED_OUT
      ClockOutOutcome.success status workHours
    else ClockOutOutcome.failure (check.reason.getD "無法下班打卡")

/-! ### Payroll calculator (payroll-service.ts)

`PayrollService.calculatePayroll` queries a period's finalized attendance
rows, groups them by user, and computes one `PayrollCalculation` per user.
The per-user computation is pure; it is embedded as `calculatePayrollUser`
over the user's row list. Money amounts are rationals (JS floating point is
embedded as exact rational arithmetic). -/

/-- payroll-service.ts `OVERTIME_RATES.WEEKDAY.FIRST_2_HOURS`. -/
def OVERTIME_RATE_WEEKDAY_FIRST_2_HOURS : ℚ := 1.34

/-- payroll-service.ts `OVERTIME_RATES.WEEKDAY.AFTER_2_HOURS`. -/
def OVERTIME_RATE_WEEKDAY_AFTER_2_HOURS : ℚ := 1.67

/-- payroll-service.ts `OVERTIME_RATES.HOLIDAY`. -/
def OVERTIME_RATE_HOLIDAY : ℚ := 2

/-- payroll-service.ts `NIGHT_SHIFT_ALLOWANCE` (per hour, 22:00–06:00). -/
def NIGHT_SHIFT_ALLOWANCE : ℚ := 50

/-- JavaScript `Math.round`: nearest integer, halves toward positive
infinity. -/
def jsRound (q : ℚ) : ℤ := ⌊q + 1 / 2⌋

/-- `Math.round(x * 100) / 100`, the two-decimal rounding of the reported
hour totals. -/
def roundTo2 (q : ℚ) : ℚ := (jsRound (q * 100) : ℚ) / 100

/-- payroll-service.ts `PayrollService.calculateOvertimePay`: zero for
non-positive hours, otherwise the first 2 hours at the ×1.34 tier and the
hours beyond 2 at the ×1.67 tier. -/
def calculateOvertimePay (hours hourlyRate : ℚ) : ℚ :=
  if hours ≤ 0 then 0
  else
    let first2Hours := min hours 2
    let afterHours := max 0 (hours - 2)
    first2Hours * hourlyRate * OVERTIME_RATE_WEEKDAY_FIRST_2_HOURS +
      afterHours * hourlyRate * OVERTIME_RATE_WEEKDAY_AFTER_2_HOURS

/-- payroll-service.ts `PayrollService.calculateNightMinutes`. The source
comments this as a simplified calculation of the 22:00–06:00 night window: it
inspects only the clock-in/clock-out hour of day, adding the remainder of the
clock-in hour when the clock-in hour lies in the window and the clock-out
date's minutes when the clock-out hour lies in the window. The second addend
of the first branch is an unfloored float division, hence `ℚ`. -/
def calculateNightMinutes (clockIn : JSDate) (clockOut : Option JSDate) : ℚ :=
  match clockOut with
  | none => 0
  | some e =>
    let startHour := clockIn.hours
    let endHour := e.hours
    let fromStart : ℚ :=
      if startHour ≥ 22 ∨ startHour < 6 then
        min ((60 : ℚ) - (clockIn.minutes : ℚ)) (((e.ms - clockIn.ms : ℤ) : ℚ) / 60000)
      else 0
    let fromEnd : ℚ := if endHour ≥ 22 ∨ endHour < 6 then (e.minutes : ℚ) else 0
    max 0 (fromStart + fromEnd)

/-- payroll-service.ts private `PayrollService.getScheduledMinutes`: shift end
minus shift start with overnight normalization and, unlike the work-hours
calculator's `calculateScheduledMinutes`, no break or split-window
subtraction. -/
def payrollScheduledMinutes (shiftType : ShiftType) : Int :=
  let s := parseTimeString shiftType.startTime
  let e := parseTimeString shiftType.endTime
  let minutes := e.1 * 60 + e.2 - (s.1 * 60 + s.2)
  if minutes < 0 then minutes + 24 * 60 else minutes

/-- Gregorian leap-year rule, as implemented by the JS `Date`. -/
def isLeapYear (year : Int) : Bool :=
  (year % 4 == 0 && year % 100 != 0) || year % 400 == 0

/-- `new Date(year, month + 1, 0).getDate()`: the number of days of the
0-based `month` of `year` (months 0–11; 1 = February, 3 = April, …). -/
def daysInMonth (year month : Int) : Int :=
  if month = 1 then (if isLeapYear year then 29 else 28)
  else if month = 3 ∨ month = 5 ∨ month = 8 ∨ month = 10 then 30
  else 31

/-- The observations payroll makes of a period-boundary `Date`: `getTime()`,
`getFullYear()` and the 0-based `getMonth()`. -/
structure PeriodDate where
  ms : Int
  year : Int
  month : Int
deriving DecidableEq, Repr

/-- The user fields the payroll computation reads. `hourlyRate` and
`monthlySalary` are `Decimal?` columns converted with `Number(...)`. -/
structure PayrollUserInfo where
  employmentType : Option String
  hourlyRate : Option ℚ
  monthlySalary : Option ℚ
deriving DecidableEq, Repr

/-- One attendance row as the payroll loop consumes it: the ISO date string,
`new Date(att.date).getDay()`, the clock timestamps, the persisted
`netWorkMinutes` and the linked schedule's shift type. -/
structure PayrollAttendance where
  date : String
  dayOfWeek : Int
  clockIn : Option JSDate
  clockOut : Option JSDate
  netWorkMinutes : Option Int
  shiftType : Option ShiftType
deriving DecidableEq, Repr

/-- One entry of `PayrollCalculation.details`. -/
structure DayDetail where
  date : String
  regularMinutes : Int
  overtimeMinutes : Int
  isHoliday : Bool
  nightMinutes : ℚ
deriving DecidableEq, Repr

/-- The accumulators of the per-attendance loop of `calculatePayroll`
(`totalRegularMinutes`, `totalOvertimeMinutes`, `totalHolidayMinutes`,
`totalNightMinutes`, `details`). -/
structure PayrollTotals where
  regularMinutes : Int
  overtimeMinutes : Int
  holidayMinutes : Int
  nightMinutes : ℚ
  details : List DayDetail
deriving DecidableEq, Repr

/-- One iteration of the per-attendance loop of `calculatePayroll`.
`if (!att.clockIn || !att.netWorkMinutes) continue` skips a null clock-in and
a null or zero `netWorkMinutes` (JS falsiness). A weekend day (`getDay()` 0
or 6) books all net minutes as holiday minutes; its night minutes reach only
the detail entry, not the night total. A weekday splits net minutes against
the scheduled minutes (default 480 without a shift) and accumulates the night
minutes. -/
def processAttendance (acc : PayrollTotals) (att : PayrollAttendance) : PayrollTotals :=
  match att.clockIn, att.netWorkMinutes with
  | some ci, some net =>
    if net = 0 then acc
    else
      let isWeekend := att.dayOfWeek = 0 ∨ att.dayOfWeek = 6
      let nightMinutes := calculateNightMinutes ci att.clockOut
      if isWeekend then
        { acc with
          holidayMinutes := acc.holidayMinutes + net
          details := acc.details ++
            [{ date := att.date, regularMinutes := 0, overtimeMinutes := 0,
               isHoliday := true, nightMinutes := nightMinutes }] }
      else
        let scheduledMinutes :=
          match att.shiftType with
          | some st => payrollScheduledMinutes st
          | none => 480
        let regularMinutes := min net scheduledMinutes
        let overtimeMinutes := max 0 (net - scheduledMinutes)
        { regularMinutes := acc.regularMinutes + regularMinutes
          overtimeMinutes := acc.overtimeMinutes + overtimeMinutes
          holidayMinutes := acc.holidayMinutes
          nightMinutes := acc.nightMinutes + nightMinutes
          details := acc.details ++
            [{ date := att.date, regularMinutes := regularMinutes,
               overtimeMinutes := overtimeMinutes, isHoliday := false,
               nightMinutes := nightMinutes }] }
  | _, _ => acc

/-- The minute totals accumulated over a user's attendance rows. -/
def payrollTotals (atts : List PayrollAttendance) : PayrollTotals :=
  atts.foldl processAttendance
    { regularMinutes := 0, overtimeMinutes := 0, holidayMinutes := 0,
      nightMinutes := 0, details := [] }

/-- `user.hourlyRate ? Number(user.hourlyRate) : 183` (183 is the 2024
minimum hourly wage default; a present `Decimal` is truthy). -/
def payrollHourlyRate (user : PayrollUserInfo) : ℚ :=
  user.hourlyRate.getD 183

/-- `user.employmentType || "PART_TIME"`. -/
def payrollEmploymentType (user : PayrollUserInfo) : String :=
  user.employmentType.getD "PART_TIME"

/-- `employmentType === "FULL_TIME"`. -/
def payrollIsFullTime (user : PayrollUserInfo) : Bool :=
  payrollEmploymentType user == "FULL_TIME"

/-- The `isFullTime && monthlySalary` truthiness test: once converted with
`Number(...)`, a null and a zero monthly salary are both falsy. -/
def payrollIsFullTimeSalaried (user : PayrollUserInfo) : Bool :=
  payrollIsFullTime user && decide (user.monthlySalary.getD 0 ≠ 0)

/-- The effective hourly rate used to price overtime/holiday minutes:
`monthlySalary / 30 / 8` for salaried full-time employees, the stored hourly
rate otherwise. -/
def payrollEffectiveHourlyRate (user : PayrollUserInfo) : ℚ :=
  if payrollIsFullTimeSalaried user then user.monthlySalary.getD 0 / 30 / 8
  else payrollHourlyRate user

/-- `Math.ceil((periodEnd - periodStart) / (1000*60*60*24)) + 1`. -/
def payrollPeriodDays (periodStart periodEnd : PeriodDate) : Int :=
  ⌈((periodEnd.ms - periodStart.ms : ℤ) : ℚ) / (1000 * 60 * 60 * 24)⌉ + 1

/-- The unrounded base pay: day-fraction prorated monthly salary for salaried
full-time employees (`(monthlySalary / monthDays) * min(periodDays,
monthDays)`), regular hours times hourly rate otherwise. -/
def payrollBasePayRaw (user : PayrollUserInfo) (atts : List PayrollAttendance)
    (periodStart periodEnd : PeriodDate) : ℚ :=
  if payrollIsFullTimeSalaried user then
    let periodDays := payrollPeriodDays periodStart periodEnd
    let monthDays := daysInMonth periodStart.year periodStart.month
    user.monthlySalary.getD 0 / (monthDays : ℚ) * ((min periodDays monthDays : ℤ) : ℚ)
  else
    ((payrollTotals atts).regularMinutes : ℚ) / 60 * payrollHourlyRate user

/-- The unrounded overtime pay: the two-tier rate applied once to the
period's accumulated overtime hours. -/
def payrollOvertimePayRaw (user : PayrollUserInfo) (atts : List PayrollAttendance) : ℚ :=
  calculateOvertimePay (((payrollTotals atts).overtimeMinutes : ℚ) / 60)
    (payrollEffectiveHourlyRate user)

/-- The unrounded holiday pay: accumulated holiday hours at the flat ×2
rate. -/
def payrollHolidayPayRaw (user : PayrollUserInfo) (atts : List PayrollAttendance) : ℚ :=
  ((payrollTotals atts).holidayMinutes : ℚ) / 60 * payrollEffectiveHourlyRate user *
    OVERTIME_RATE_HOLIDAY

/-- The unrounded night-shift pay: accumulated night hours times the flat
per-hour allowance. -/
def payrollNightShiftPayRaw (atts : List PayrollAttendance) : ℚ :=
  (payrollTotals atts).nightMinutes / 60 * NIGHT_SHIFT_ALLOWANCE

/-- payroll-service.ts `PayrollCalculation` (per-user line item). -/
structure PayrollCalculation where
  employmentType : String
  regularHours : ℚ
  overtimeHours : ℚ
  holidayHours : ℚ
  nightShiftHours : ℚ
  basePay : ℤ
  overtimePay : ℤ
  holidayPay : ℤ
  nightShiftPay : ℤ
  grossPay : ℤ
  workDays : Nat
  hourlyRate : Option ℚ
  monthlySalary : Option ℚ
  details : List DayDetail
deriving DecidableEq, Repr

/-- The per-user body of `PayrollService.calculatePayroll`: accumulate the
minute totals over the user's attendance rows, convert to hours, compute the
four pay components, and assemble the result record with `Math.round` applied
to each reported pay component and to the sum of the unrounded components for
`grossPay`. -/
def calculatePayrollUser (user : PayrollUserInfo) (atts : List PayrollAttendance)
    (periodStart periodEnd : PeriodDate) : PayrollCalculation :=
  let totals := payrollTotals atts
  { employmentType := payrollEmploymentType user
    regularHours := roundTo2 ((totals.regularMinutes : ℚ) / 60)
    overtimeHours := roundTo2 ((totals.overtimeMinutes : ℚ) / 60)
    holidayHours := roundTo2 ((totals.holidayMinutes : ℚ) / 60)
    nightShiftHours := roundTo2 (totals.nightMinutes / 60)
    basePay := jsRound (payrollBasePayRaw user atts periodStart periodEnd)
    overtimePay := jsRound (payrollOvertimePayRaw user atts)
    holidayPay := jsRound (payrollHolidayPayRaw user atts)
    nightShiftPay := jsRound (payrollNightShiftPayRaw atts)
    grossPay := jsRound (payrollBasePayRaw user atts periodStart periodEnd +
      payrollOvertimePayRaw user atts + payrollHolidayPayRaw user atts +
      payrollNightShiftPayRaw atts)
    workDays := atts.length
    hourlyRate := if payrollIsFullTime user then none else some (payrollHourlyRate user)
    monthlySalary := if payrollIsFullTime user then user.monthlySalary else none
    details := totals.details }

/-! ### Helper lemmas -/

/-- The `netWorkMinutes` field is definitionally `totalMinutes - breakMinutes`. -/
lemma calculateWorkHours_net_eq (input : WorkHoursInput) (now : JSDate) :
    (calculateWorkHours input now).netWorkMinutes =
      (calculateWorkHours input now).totalMinutes -
        (calculateWorkHours input now).breakMinutes := rfl

/-- From state `WORKING`, `CLOCK_OUT` resolves to the open-break guard. -/
lemma canTransition_WORKING_CLOCK_OUT (ctx : ClockContext) :
    canTransition ClockState.WORKING ctx ClockAction.CLOCK_OUT =
      match (match ctx.attendance with
             | some att => att.breaks.find? (fun b : BreakRec => b.endTime.isNone)
             | none => (none : Option BreakRec)) with
      | some _ => { allowed := false, reason := some "請先結束休息再下班打卡" }
      | none => { allowed := true, reason := none } := rfl

/-- From state `ON_BREAK` there is no `CLOCK_OUT` entry, so the default denial
is returned. -/
lemma canTransition_ON_BREAK_CLOCK_OUT (ctx : ClockContext) :
    canTransition ClockState.ON_BREAK ctx ClockAction.CLOCK_OUT =
      { allowed := false, reason := some "無法從 ON_BREAK 狀態執行 CLOCK_OUT" } := rfl

/-- `Math.round` is at most a half unit above its argument. -/
lemma jsRound_le (q : ℚ) : (jsRound q : ℚ) ≤ q + 1 / 2 :=
  Int.floor_le _

/-- `Math.round` is less than a half unit below its argument. -/
lemma lt_jsRound (q : ℚ) : q - 1 / 2 < (jsRound q : ℚ) := by
  have h := Int.sub_one_lt_floor (q + 1 / 2)
  unfold jsRound
  linarith

/-- `2 < 3` in the rationals, used to discharge a tier hypothesis. -/
lemma two_lt_three_rat : (2 : ℚ) < 3 := by norm_num

/-- Rounding a sum of four terms differs from the sum of the four roundings
by at most 2. -/
lemma jsRound_sum_bound (a b c d : ℚ) :
    |jsRound (a + b + c + d) - (jsRound a + jsRound b + jsRound c + jsRound d)| ≤ 2 := by
  have hg1 := jsRound_le (a + b + c + d)
  have hg2 := lt_jsRound (a + b + c + d)
  have ha1 := jsRound_le a
  have ha2 := lt_jsRound a
  have hb1 := jsRound_le b
  have hb2 := lt_jsRound b
  have hc1 := jsRound_le c
  have hc2 := lt_jsRound c
  have hd1 := jsRound_le d
  have hd2 := lt_jsRound d
  rw [abs_le]
  constructor
  · have hq : (-3 : ℚ) <
        ((jsRound (a + b + c + d) - (jsRound a + jsRound b + jsRound c + jsRound d) : ℤ) : ℚ) := by
      push_cast
      linarith
    have hz : (-3 : ℤ) <
        jsRound (a + b + c + d) - (jsRound a + jsRound b + jsRound c + jsRound d) := by
      exact_mod_cast hq
    omega
  · have hq :
        ((jsRound (a + b + c + d) - (jsRound a + jsRound b + jsRound c + jsRound d) : ℤ) : ℚ) <
          3 := by
      push_cast
      linarith
    have hz : jsRound (a + b + c + d) - (jsRound a + jsRound b + jsRound c + jsRound d) <
        (3 : ℤ) := by
      exact_mod_cast hq
    omega

/-! ### Claims -/

/-- C1 (counterexample): the claim asserts that a clock-out with a still-open
MEAL break does not block and persists `PENDING_REVIEW`. On the code it does
block: for a concrete attendance in status `CLOCKED_IN` with one open MEAL
break, `clockOut` returns the failed result with the guard's reason and
persists nothing. -/
theorem c1_counterexample :
    clockOut (some { status := AttendanceStatus.CLOCKED_IN
                     clockIn := some { ms := 9 * 3600000, hours := 9, minutes := 0 }
                     clockOut := none
                     clockIn2 := none
                     clockOut2 := none
                     breaks := [{ startTime := { ms := 12 * 3600000, hours := 12, minutes := 0 }
                                  endTime := none
                                  type := BreakType.MEAL }] })
        none { ms := 18 * 3600000, hours := 18, minutes := 0 } =
      ClockOutOutcome.failure "請先結束休息再下班打卡" := rfl

/-- C1 (amended): if `clockOut` is invoked while the record's status is
`CLOCKED_IN` or `ON_BREAK` and an open break exists, the operation is blocked:
it returns a failed result and persists nothing. `calculateWorkHours` itself,
on any input with an open break, does return `hasUnendedBreak = true` and
`requiresReview = true` (and `clockOut` persists `PENDING_REVIEW` exactly when
`requiresReview` holds), but the guard prevents an open break from ever
reaching that path through `clockOut`. -/
theorem c1_blocked_open_break :
    (∀ (att : Attendance) (schedule : Option Schedule) (now : JSDate),
        att.breaks.any (fun b => b.endTime.isNone) = true →
        (att.status = AttendanceStatus.CLOCKED_IN ∨ att.status = AttendanceStatus.ON_BREAK) →
        ∃ msg, clockOut (some att) schedule now = ClockOutOutcome.failure msg) ∧
    (∀ (input : WorkHoursInput) (now : JSDate),
        input.breaks.any (fun b => b.endTime.isNone) = true →
        (calculateWorkHours input now).hasUnendedBreak = true ∧
          (calculateWorkHours input now).requiresReview = true) := by
  constructor
  · intro att schedule now hopen hstatus
    obtain ⟨b, hb, hbnone⟩ := List.any_eq_true.mp hopen
    have hfind : (att.breaks.find? (fun b => b.endTime.isNone)).isSome :=
      List.find?_isSome.mpr ⟨b, hb, hbnone⟩
    obtain ⟨b', hfind'⟩ := Option.isSome_iff_exists.mp hfind
    rcases hstatus with h | h
    · have hstate : deriveState (some att) schedule = ClockState.WORKING := by
        simp [deriveState, h]
      exact ⟨"請先結束休息再下班打卡",
        by simp [clockOut, hstate, canTransition_WORKING_CLOCK_OUT, hfind']⟩
    · have hstate : deriveState (some att) schedule = ClockState.ON_BREAK := by
        simp [deriveState, h]
      exact ⟨"無法從 ON_BREAK 狀態執行 CLOCK_OUT",
        by simp [clockOut, hstate, canTransition_ON_BREAK_CLOCK_OUT]⟩
  · intro input now h
    obtain ⟨ci, co, ci2, co2, brks, sto⟩ := input
    simp only [WorkHoursInput.breaks] at h
    refine ⟨?_, ?_⟩
    · simpa [calculateWorkHours] using h
    · simp [calculateWorkHours, h]

/-- Concrete attendance used by the C1 witness: status `CLOCKED_IN` with one
open MEAL break. -/
def c1WitnessAtt : Attendance :=
  { status := AttendanceStatus.CLOCKED_IN
    clockIn := some { ms := 9 * 3600000, hours := 9, minutes := 0 }
    clockOut := none
    clockIn2 := none
    clockOut2 := none
    breaks := [{ startTime := { ms := 12 * 3600000, hours := 12, minutes := 0 }
                 endTime := none
                 type := BreakType.MEAL }] }

/-- Concrete calculator input used by the C1 witness: one open MEAL break. -/
def c1WitnessInput : WorkHoursInput :=
  { clockIn := { ms := 9 * 3600000, hours := 9, minutes := 0 }
    clockOut := { ms := 18 * 3600000, hours := 18, minutes := 0 }
    clockIn2 := none
    clockOut2 := none
    breaks := [{ startTime := { ms := 12 * 3600000, hours := 12, minutes := 0 }
                 endTime := none
                 type := BreakType.MEAL }]
    shiftType := none }

/-- Witness for C1 at the concrete open-break attendance. -/
theorem c1_blocked_open_break_witness :
    (c1WitnessAtt.breaks.any (fun b => b.endTime.isNone) = true) ∧
    (∃ msg, clockOut (some c1WitnessAtt) none { ms := 18 * 3600000, hours := 18, minutes := 0 } =
      ClockOutOutcome.failure msg) ∧
    (calculateWorkHours c1WitnessInput { ms := 18 * 3600000, hours := 18, minutes := 0 }).hasUnendedBreak = true ∧
    (calculateWorkHours c1WitnessInput { ms := 18 * 3600000, hours := 18, minutes := 0 }).requiresReview = true :=
  ⟨by decide,
   c1_blocked_open_break.1 c1WitnessAtt none _ (by decide) (Or.inl rfl),
   (c1_blocked_open_break.2 c1WitnessInput _ (by decide)).1,
   (c1_blocked_open_break.2 c1WitnessInput _ (by decide)).2⟩

/-- C2: for every input, the `WorkHoursResult` of `calculateWorkHours`
satisfies `netWorkMinutes = totalMinutes - breakMinutes` exactly. -/
theorem c2_net_work_minutes_invariant (input : WorkHoursInput) (now : JSDate) :
    (calculateWorkHours input now).netWorkMinutes =
      (calculateWorkHours input now).totalMinutes -
        (calculateWorkHours input now).breakMinutes :=
  calculateWorkHours_net_eq input now

/-- C3: whenever a shift definition is supplied, the `WorkHoursResult`
satisfies `regularMinutes + overtimeMinutes = netWorkMinutes`, for every
combination of timestamps and breaks. -/
theorem c3_regular_plus_overtime (input : WorkHoursInput) (now : JSDate)
    (st : ShiftType) (h : input.shiftType = some st) :
    (calculateWorkHours input now).regularMinutes +
        (calculateWorkHours input now).overtimeMinutes =
      (calculateWorkHours input now).netWorkMinutes := by
  obtain ⟨ci, co, ci2, co2, brks, sto⟩ := input
  simp only [WorkHoursInput.shiftType] at h
  subst h
  simp only [calculateWorkHours]
  split
  · omega
  · omega

/-- Concrete shift used by the C3 and C10 witnesses: 09:00–18:00, 60-minute
break budget, not split. -/
def cShift : ShiftType :=
  { startTime := "09:00", endTime := "18:00", breakDuration := 60,
    maxBreakCount := 3, isSplit := false, splitBreakStart := none, splitBreakEnd := none }

/-- Concrete calculator input used by the C3 witness (the spec's round-trip
scenario: 09:00–18:00 with one closed 30-minute MEAL break). -/
def c3WitnessInput : WorkHoursInput :=
  { clockIn := { ms := 9 * 3600000, hours := 9, minutes := 0 }
    clockOut := { ms := 18 * 3600000, hours := 18, minutes := 0 }
    clockIn2 := none
    clockOut2 := none
    breaks := [{ startTime := { ms := 12 * 3600000, hours := 12, minutes := 0 }
                 endTime := some { ms := 12 * 3600000 + 30 * 60000, hours := 12, minutes := 30 }
                 type := BreakType.MEAL }]
    shiftType := some cShift }

/-- Witness for C3 at the round-trip scenario input. -/
theorem c3_regular_plus_overtime_witness :
    c3WitnessInput.shiftType = some cShift ∧
    (calculateWorkHours c3WitnessInput { ms := 18 * 3600000, hours := 18, minutes := 0 }).regularMinutes +
        (calculateWorkHours c3WitnessInput { ms := 18 * 3600000, hours := 18, minutes := 0 }).overtimeMinutes =
      (calculateWorkHours c3WitnessInput { ms := 18 * 3600000, hours := 18, minutes := 0 }).netWorkMinutes :=
  ⟨rfl, c3_regular_plus_overtime c3WitnessInput _ cShift rfl⟩

/-- C4: for every (state, action) pair without an entry in the transition
table, `canTransition` returns `allowed = false` together with a reason (the
function is total, so it can never throw); in particular, from state
`WORKING`, `canTransition` denies `CLOCK_IN` for every context. -/
theorem c4_total_deny_missing_transition :
    (∀ (state : ClockState) (ctx : ClockContext) (action : ClockAction),
        findTransition state action = none →
        (canTransition state ctx action).allowed = false ∧
          (canTransition state ctx action).reason ≠ none) ∧
    (∀ ctx : ClockContext,
        (canTransition ClockState.WORKING ctx ClockAction.CLOCK_IN).allowed = false) := by
  constructor
  · intro state ctx action h
    simp [canTransition, h]
  · intro ctx
    rfl

/-- Witness for C4 at the empty context and the table-less pair
(`ON_BREAK`, `CLOCK_IN`). -/
theorem c4_total_deny_missing_transition_witness :
    findTransition ClockState.ON_BREAK ClockAction.CLOCK_IN = none ∧
    ((canTransition ClockState.ON_BREAK ⟨none, none⟩ ClockAction.CLOCK_IN).allowed = false ∧
      (canTransition ClockState.ON_BREAK ⟨none, none⟩ ClockAction.CLOCK_IN).reason ≠ none) ∧
    (canTransition ClockState.WORKING ⟨none, none⟩ ClockAction.CLOCK_IN).allowed = false :=
  ⟨rfl, c4_total_deny_missing_transition.1 _ _ _ rfl, c4_total_deny_missing_transition.2 _⟩

/-- C9: the state derivation maps every status other than `ON_BREAK`,
`CLOCKED_OUT` and `CLOCKED_IN` (so `PENDING_REVIEW`, `APPROVED`, `ABSENT`,
`REJECTED`) to `CLOCKED_OUT`; `SPLIT_BREAK` is reachable only from status
`CLOCKED_OUT`; and from state `CLOCKED_OUT` the segment-2 clock-in is denied
for every context — so a split-shift day parked in `PENDING_REVIEW` can never
start segment 2. -/
theorem c9_state_derivation_pending_review :
    (∀ (att : Attendance) (schedule : Option Schedule),
        (att.status = AttendanceStatus.PENDING_REVIEW ∨ att.status = AttendanceStatus.APPROVED ∨
          att.status = AttendanceStatus.ABSENT ∨ att.status = AttendanceStatus.REJECTED) →
        deriveState (some att) schedule = ClockState.CLOCKED_OUT) ∧
    (∀ (att : Attendance) (schedule : Option Schedule),
        deriveState (some att) schedule = ClockState.SPLIT_BREAK →
        att.status = AttendanceStatus.CLOCKED_OUT) ∧
    (∀ ctx : ClockContext,
        (canTransition ClockState.CLOCKED_OUT ctx ClockAction.CLOCK_IN_SEGMENT_2).allowed = false) := by
  refine ⟨?_, ?_, ?_⟩
  · intro att sched h
    rcases h with h | h | h | h <;> simp [deriveState, h]
  · intro att sched h
    cases hstatus : att.status <;> simp [deriveState, hstatus] at h ⊢
  · intro ctx
    rfl

/-- Concrete attendance used by the C9 witness: a split-shift day routed to
`PENDING_REVIEW` after its segment-1 clock-out. -/
def c9WitnessAtt : Attendance :=
  { status := AttendanceStatus.PENDING_REVIEW
    clockIn := some { ms := 9 * 3600000, hours := 9, minutes := 0 }
    clockOut := some { ms := 14 * 3600000, hours := 14, minutes := 0 }
    clockIn2 := none
    clockOut2 := none
    breaks := [] }

/-- Concrete split shift type used by the C9 witness. -/
def c9WitnessShiftType : ShiftType :=
  { startTime := "09:00", endTime := "21:00", breakDuration := 60,
    maxBreakCount := 3, isSplit := true,
    splitBreakStart := some "14:00", splitBreakEnd := some "17:00" }

/-- Concrete split-shift schedule used by the C9 witness. -/
def c9WitnessSchedule : Schedule :=
  { shiftType := c9WitnessShiftType }

/-- The C9 witness attendance with its status moved to `CLOCKED_OUT`, from
which the derivation does reach `SPLIT_BREAK`. -/
def c9WitnessAttClockedOut : Attendance :=
  { status := AttendanceStatus.CLOCKED_OUT
    clockIn := some { ms := 9 * 3600000, hours := 9, minutes := 0 }
    clockOut := some { ms := 14 * 3600000, hours := 14, minutes := 0 }
    clockIn2 := none
    clockOut2 := none
    breaks := [] }

/-- Witness for C9: the pending-review split-shift day derives to
`CLOCKED_OUT` (not `SPLIT_BREAK`) and cannot start segment 2; a genuine
`SPLIT_BREAK` derivation implies status `CLOCKED_OUT`. -/
theorem c9_state_derivation_pending_review_witness :
    deriveState (some c9WitnessAtt) (some c9WitnessSchedule) = ClockState.CLOCKED_OUT ∧
    c9WitnessAttClockedOut.status = AttendanceStatus.CLOCKED_OUT ∧
    (canTransition ClockState.CLOCKED_OUT
        ⟨some c9WitnessAtt, some c9WitnessSchedule⟩ ClockAction.CLOCK_IN_SEGMENT_2).allowed = false :=
  ⟨c9_state_derivation_pending_review.1 c9WitnessAtt (some c9WitnessSchedule) (Or.inl rfl),
   c9_state_derivation_pending_review.2.1 c9WitnessAttClockedOut
     (some c9WitnessSchedule) (by decide),
   c9_state_derivation_pending_review.2.2 _⟩

/-- C10: `calculateWorkHours` never clamps at zero: whenever the summed break
minutes exceed the total worked minutes, `netWorkMinutes` is negative, and if
a shift whose scheduled minutes are at least `netWorkMinutes` is supplied,
`regularMinutes` equals that same negative value while `overtimeMinutes`
is 0. -/
theorem c10_no_zero_clamp (input : WorkHoursInput) (now : JSDate)
    (hb : (calculateWorkHours input now).totalMinutes <
      (calculateWorkHours input now).breakMinutes) :
    (calculateWorkHours input now).netWorkMinutes < 0 ∧
      (∀ st, input.shiftType = some st →
        (calculateWorkHours input now).netWorkMinutes ≤ calculateScheduledMinutes st →
        (calculateWorkHours input now).regularMinutes =
            (calculateWorkHours input now).netWorkMinutes ∧
          (calculateWorkHours input now).overtimeMinutes = 0) := by
  constructor
  · rw [calculateWorkHours_net_eq]
    omega
  · intro st h hle
    obtain ⟨ci, co, ci2, co2, brks, sto⟩ := input
    simp only [WorkHoursInput.shiftType] at h
    subst h
    simp only [calculateWorkHours] at hle ⊢
    constructor <;> split <;> first | rfl | omega

/-- Concrete calculator input used by the C10 witness: 60 worked minutes
against a 120-minute closed break. -/
def c10WitnessInput : WorkHoursInput :=
  { clockIn := { ms := 9 * 3600000, hours := 9, minutes := 0 }
    clockOut := { ms := 10 * 3600000, hours := 10, minutes := 0 }
    clockIn2 := none
    clockOut2 := none
    breaks := [{ startTime := { ms := 8 * 3600000, hours := 8, minutes := 0 }
                 endTime := some { ms := 10 * 3600000, hours := 10, minutes := 0 }
                 type := BreakType.REST }]
    shiftType := some cShift }

/-- Witness for C10: net minutes are −60, regular minutes equal −60 and
overtime is 0 under the 420-scheduled-minute shift. -/
theorem c10_no_zero_clamp_witness :
    (calculateWorkHours c10WitnessInput { ms := 10 * 3600000, hours := 10, minutes := 0 }).totalMinutes <
      (calculateWorkHours c10WitnessInput { ms := 10 * 3600000, hours := 10, minutes := 0 }).breakMinutes ∧
    (calculateWorkHours c10WitnessInput { ms := 10 * 3600000, hours := 10, minutes := 0 }).netWorkMinutes < 0 ∧
    ((calculateWorkHours c10WitnessInput { ms := 10 * 3600000, hours := 10, minutes := 0 }).regularMinutes =
        (calculateWorkHours c10WitnessInput { ms := 10 * 3600000, hours := 10, minutes := 0 }).netWorkMinutes ∧
      (calculateWorkHours c10WitnessInput { ms := 10 * 3600000, hours := 10, minutes := 0 }).overtimeMinutes = 0) :=
  ⟨by decide,
   (c10_no_zero_clamp c10WitnessInput _ (by decide)).1,
   (c10_no_zero_clamp c10WitnessInput _ (by decide)).2 cShift rfl (by decide)⟩

/-! ### Payroll claims -/

/-- Shared concrete period for the payroll claims: April 1 2024 00:00 to
April 30 2024 00:00 (29 whole days of difference, so `periodDays = 30`)
inside the 30-day month of April. -/
def cPeriodStart : PeriodDate := { ms := 0, year := 2024, month := 3 }

/-- End of the shared concrete payroll period. -/
def cPeriodEnd : PeriodDate := { ms := 29 * 86400000, year := 2024, month := 3 }

/-- Part-time employee at hourly rate 200, used by C5 and C7. -/
def c5User : PayrollUserInfo :=
  { employmentType := some "PART_TIME", hourlyRate := some 200, monthlySalary := none }

/-- A weekday attendance with 600 net minutes (120 minutes of overtime over
the default 480 scheduled minutes) and no night work. -/
def c5Day (d : String) : PayrollAttendance :=
  { date := d, dayOfWeek := 2
    clockIn := some { ms := 9 * 3600000, hours := 9, minutes := 0 }
    clockOut := some { ms := 19 * 3600000, hours := 19, minutes := 0 }
    netWorkMinutes := some 600, shiftType := none }

/-- Two weekdays with 2 hours of overtime each. -/
def c5Atts : List PayrollAttendance := [c5Day "2024-04-02", c5Day "2024-04-03"]

/-- One weekday with 660 net minutes, i.e. 3 hours of overtime. -/
def c5SingleAtts : List PayrollAttendance :=
  [{ date := "2024-04-02", dayOfWeek := 2
     clockIn := some { ms := 9 * 3600000, hours := 9, minutes := 0 }
     clockOut := some { ms := 20 * 3600000, hours := 20, minutes := 0 }
     netWorkMinutes := some 660, shiftType := none }]

/-- C5 (counterexample): two weekdays with 2 hours of overtime each at hourly
rate 200. Per-day tiering, as the claim states it, pays 2 × (2×200×1.34) and
rounds to 1072; the code applies the tiers once to the period total of
4 hours and pays 1204. -/
theorem c5_counterexample :
    (calculatePayrollUser c5User c5Atts cPeriodStart cPeriodEnd).overtimePay = 1204 ∧
    jsRound (2 * 200 * OVERTIME_RATE_WEEKDAY_FIRST_2_HOURS +
      2 * 200 * OVERTIME_RATE_WEEKDAY_FIRST_2_HOURS) = 1072 ∧
    (1204 : ℤ) ≠ 1072 := by
  refine ⟨?_, ?_, by decide⟩
  · norm_num [calculatePayrollUser, payrollOvertimePayRaw, payrollTotals, processAttendance,
      calculateNightMinutes, payrollEffectiveHourlyRate, payrollIsFullTimeSalaried,
      payrollIsFullTime, payrollEmploymentType, payrollHourlyRate, calculateOvertimePay,
      OVERTIME_RATE_WEEKDAY_FIRST_2_HOURS, OVERTIME_RATE_WEEKDAY_AFTER_2_HOURS, jsRound,
      c5User, c5Atts, c5Day]
  · norm_num [jsRound, OVERTIME_RATE_WEEKDAY_FIRST_2_HOURS]

/-- C5 (amended): the weekday overtime tiers (×1.34 for the first 2 hours,
×1.67 beyond) are applied by `calculateOvertimePay`, and the payroll
computation applies them once to the period's accumulated overtime hours, not
per day; for a period whose only overtime is a single day with 3 hours at
hourly rate 200 the result coincides with the claim's example:
`overtimePay = 2×200×1.34 + 1×200×1.67 = 870`. -/
theorem c5_overtime_tiering_period_total :
    (∀ hours rate : ℚ, 0 < hours → hours ≤ 2 →
        calculateOvertimePay hours rate =
          hours * rate * OVERTIME_RATE_WEEKDAY_FIRST_2_HOURS) ∧
    (∀ hours rate : ℚ, 2 < hours →
        calculateOvertimePay hours rate =
          2 * rate * OVERTIME_RATE_WEEKDAY_FIRST_2_HOURS +
            (hours - 2) * rate * OVERTIME_RATE_WEEKDAY_AFTER_2_HOURS) ∧
    (∀ (user : PayrollUserInfo) (atts : List PayrollAttendance) (ps pe : PeriodDate),
        (calculatePayrollUser user atts ps pe).overtimePay =
          jsRound (calculateOvertimePay (((payrollTotals atts).overtimeMinutes : ℚ) / 60)
            (payrollEffectiveHourlyRate user))) ∧
    (calculatePayrollUser c5User c5SingleAtts cPeriodStart cPeriodEnd).overtimePay = 870 := by
  refine ⟨?_, ?_, ?_, ?_⟩
  · intro hours rate h0 h2
    rw [calculateOvertimePay, if_neg (by linarith)]
    simp only [min_eq_left h2, max_eq_left (by linarith : hours - 2 ≤ 0)]
    ring
  · intro hours rate h2
    rw [calculateOvertimePay, if_neg (by linarith)]
    simp only [min_eq_right (le_of_lt h2), max_eq_right (by linarith : (0 : ℚ) ≤ hours - 2)]
  · intro user atts ps pe
    rfl
  · norm_num [calculatePayrollUser, payrollOvertimePayRaw, payrollTotals, processAttendance,
      calculateNightMinutes, payrollEffectiveHourlyRate, payrollIsFullTimeSalaried,
      payrollIsFullTime, payrollEmploymentType, payrollHourlyRate, calculateOvertimePay,
      OVERTIME_RATE_WEEKDAY_FIRST_2_HOURS, OVERTIME_RATE_WEEKDAY_AFTER_2_HOURS, jsRound,
      c5User, c5SingleAtts]

/-- Witness for C5 at overtime totals of 1 hour and 3 hours. -/
theorem c5_overtime_tiering_period_total_witness :
    (0 : ℚ) < 1 ∧ (1 : ℚ) ≤ 2 ∧ (2 : ℚ) < 3 ∧
    calculateOvertimePay 1 100 = 1 * 100 * OVERTIME_RATE_WEEKDAY_FIRST_2_HOURS ∧
    calculateOvertimePay 3 100 =
      2 * 100 * OVERTIME_RATE_WEEKDAY_FIRST_2_HOURS +
        (3 - 2) * 100 * OVERTIME_RATE_WEEKDAY_AFTER_2_HOURS :=
  ⟨one_pos, one_le_two, two_lt_three_rat,
   c5_overtime_tiering_period_total.1 1 100 one_pos one_le_two,
   c5_overtime_tiering_period_total.2.1 3 100 two_lt_three_rat⟩

/-- Clock-in at 23:00 used by the C6 failing input. -/
def c6ClockIn : JSDate := { ms := 23 * 3600000, hours := 23, minutes := 0 }

/-- Clock-out at 02:00 the next day (three hours after `c6ClockIn`). -/
def c6ClockOut : JSDate := { ms := 26 * 3600000, hours := 2, minutes := 0 }

/-- A weekend attendance worked 23:00–02:00, entirely inside the night
window. -/
def c6WeekendAtt : PayrollAttendance :=
  { date := "2024-04-06", dayOfWeek := 6, clockIn := some c6ClockIn,
    clockOut := some c6ClockOut, netWorkMinutes := some 180, shiftType := none }

/-- C6 (code bug): a 23:00–02:00 shift lies entirely inside the 22:00–06:00
night window, 180 minutes, yet `calculateNightMinutes` — a self-described
simplification that inspects only the terminal hours of day — returns 60; and
on a weekend attendance the computed night minutes reach only the day's
detail entry while the accumulated night total stays 0, so they are never
paid. -/
theorem c6_night_window_divergence :
    differenceInMinutes c6ClockOut c6ClockIn = 180 ∧
    calculateNightMinutes c6ClockIn (some c6ClockOut) = 60 ∧
    (60 : ℚ) ≠ 180 ∧
    (payrollTotals [c6WeekendAtt]).nightMinutes = 0 ∧
    (payrollTotals [c6WeekendAtt]).details.map (fun d => d.nightMinutes) = [60] := by
  refine ⟨by decide, ?_, by norm_num, ?_, ?_⟩
  · norm_num [calculateNightMinutes, c6ClockIn, c6ClockOut]
  · norm_num [payrollTotals, processAttendance, calculateNightMinutes,
      c6WeekendAtt, c6ClockIn, c6ClockOut]
  · norm_num [payrollTotals, processAttendance, calculateNightMinutes,
      c6WeekendAtt, c6ClockIn, c6ClockOut]

/-- A weekday attendance with 498 net minutes (18 minutes of overtime) and no
night work, used by the C7 counterexample. -/
def c7WeekdayAtt : PayrollAttendance :=
  { date := "2024-04-02", dayOfWeek := 2
    clockIn := some { ms := 9 * 3600000, hours := 9, minutes := 0 }
    clockOut := some { ms := 18 * 3600000, hours := 18, minutes := 0 }
    netWorkMinutes := some 498, shiftType := none }

/-- A weekend attendance with 5 net minutes, used by the C7 counterexample. -/
def c7WeekendAtt : PayrollAttendance :=
  { date := "2024-04-06", dayOfWeek := 6
    clockIn := some { ms := 9 * 3600000, hours := 9, minutes := 0 }
    clockOut := some { ms := 10 * 3600000, hours := 10, minutes := 0 }
    netWorkMinutes := some 5, shiftType := none }

/-- The two-day attendance list of the C7 counterexample. -/
def c7Atts : List PayrollAttendance := [c7WeekdayAtt, c7WeekendAtt]

/-- C7 (counterexample): for the part-time employee at rate 200 with raw
components 1600 + 80.4 + 33.33… + 0, the reported rounded components are
1600, 80, 33, 0 (summing to 1713) while `grossPay` is the rounding of the
unrounded sum, 1714 — so `grossPay` is not the sum of the four rounded
components reported alongside it. -/
theorem c7_counterexample :
    (calculatePayrollUser c5User c7Atts cPeriodStart cPeriodEnd).grossPay = 1714 ∧
    (calculatePayrollUser c5User c7Atts cPeriodStart cPeriodEnd).basePay = 1600 ∧
    (calculatePayrollUser c5User c7Atts cPeriodStart cPeriodEnd).overtimePay = 80 ∧
    (calculatePayrollUser c5User c7Atts cPeriodStart cPeriodEnd).holidayPay = 33 ∧
    (calculatePayrollUser c5User c7Atts cPeriodStart cPeriodEnd).nightShiftPay = 0 ∧
    (1714 : ℤ) ≠ 1600 + 80 + 33 + 0 := by
  refine ⟨?_, ?_, ?_, ?_, ?_, by decide⟩ <;>
    norm_num [calculatePayrollUser, payrollBasePayRaw, payrollOvertimePayRaw,
      payrollHolidayPayRaw, payrollNightShiftPayRaw, payrollTotals, processAttendance,
      calculateNightMinutes, payrollEffectiveHourlyRate, payrollIsFullTimeSalaried,
      payrollIsFullTime, payrollEmploymentType, payrollHourlyRate, calculateOvertimePay,
      OVERTIME_RATE_WEEKDAY_FIRST_2_HOURS, OVERTIME_RATE_WEEKDAY_AFTER_2_HOURS,
      OVERTIME_RATE_HOLIDAY, NIGHT_SHIFT_ALLOWANCE, jsRound,
      c5User, c7Atts, c7WeekdayAtt, c7WeekendAtt]

/-- C7 (amended): `grossPay` is `Math.round` applied once to the sum of the
four unrounded pay components; it is not the sum of the four individually
rounded reported components, but it can differ from that sum by at most 2
currency units. -/
theorem c7_gross_pay_rounding (user : PayrollUserInfo) (atts : List PayrollAttendance)
    (ps pe : PeriodDate) :
    (calculatePayrollUser user atts ps pe).grossPay =
      jsRound (payrollBasePayRaw user atts ps pe + payrollOvertimePayRaw user atts +
        payrollHolidayPayRaw user atts + payrollNightShiftPayRaw atts) ∧
    |(calculatePayrollUser user atts ps pe).grossPay -
        ((calculatePayrollUser user atts ps pe).basePay +
          (calculatePayrollUser user atts ps pe).overtimePay +
          (calculatePayrollUser user atts ps pe).holidayPay +
          (calculatePayrollUser user atts ps pe).nightShiftPay)| ≤ 2 :=
  ⟨rfl, jsRound_sum_bound _ _ _ _⟩

/-- The specification's wording of salaried base pay:
`(monthlySalary / daysInCalendarMonth) × min(periodDays, daysInCalendarMonth)`. -/
def basePaySalariedSpec (monthlySalary : ℚ) (periodDays monthDays : ℤ) : ℚ :=
  monthlySalary / (monthDays : ℚ) * ((min periodDays monthDays : ℤ) : ℚ)

/-- Salaried full-time employee with monthly salary 36000, used by C8. -/
def c8User : PayrollUserInfo :=
  { employmentType := some "FULL_TIME", hourlyRate := none, monthlySalary := some 36000 }

/-- C8: for a salaried full-time employee, the base pay is exactly the
specification's day-fraction proration formula (then rounded on report), it
is independent of the attendance rows (hours worked), and the claim's
concrete example — salary 36000 over a 30-day period inside the 30-day month
— yields 36000. -/
theorem c8_salaried_base_pay_proration (user : PayrollUserInfo)
    (atts atts' : List PayrollAttendance) (ps pe : PeriodDate)
    (h : payrollIsFullTimeSalaried user = true) :
    payrollBasePayRaw user atts ps pe =
      basePaySalariedSpec (user.monthlySalary.getD 0) (payrollPeriodDays ps pe)
        (daysInMonth ps.year ps.month) ∧
    (calculatePayrollUser user atts ps pe).basePay =
      jsRound (basePaySalariedSpec (user.monthlySalary.getD 0) (payrollPeriodDays ps pe)
        (daysInMonth ps.year ps.month)) ∧
    (calculatePayrollUser user atts ps pe).basePay =
      (calculatePayrollUser user atts' ps pe).basePay ∧
    (calculatePayrollUser c8User [] cPeriodStart cPeriodEnd).basePay = 36000 := by
  refine ⟨?_, ?_, ?_, ?_⟩
  · simp [payrollBasePayRaw, h, basePaySalariedSpec]
  · simp [calculatePayrollUser, payrollBasePayRaw, h, basePaySalariedSpec]
  · simp [calculatePayrollUser, payrollBasePayRaw, h]
  · norm_num [calculatePayrollUser, payrollBasePayRaw, payrollIsFullTimeSalaried,
      payrollIsFullTime, payrollEmploymentType, payrollPeriodDays, daysInMonth, isLeapYear,
      payrollTotals, jsRound, basePaySalariedSpec, c8User, cPeriodStart, cPeriodEnd]

/-- Witness for C8 at the salaried 36000 employee: empty and one-day
attendance lists give the same base pay, matching the spec formula. -/
theorem c8_salaried_base_pay_proration_witness :
    payrollIsFullTimeSalaried c8User = true ∧
    payrollBasePayRaw c8User [] cPeriodStart cPeriodEnd =
      basePaySalariedSpec 36000 (payrollPeriodDays cPeriodStart cPeriodEnd)
        (daysInMonth 2024 3) ∧
    (calculatePayrollUser c8User [] cPeriodStart cPeriodEnd).basePay =
      (calculatePayrollUser c8User [c5Day "2024-04-02"] cPeriodStart cPeriodEnd).basePay ∧
    (calculatePayrollUser c8User [] cPeriodStart cPeriodEnd).basePay = 36000 :=
  ⟨by decide,
   (c8_salaried_base_pay_proration c8User [] [] cPeriodStart cPeriodEnd (by decide)).1,
   (c8_salaried_base_pay_proration c8User [] [c5Day "2024-04-02"] cPeriodStart cPeriodEnd
     (by decide)).2.2.1,
   (c8_salaried_base_pay_proration c8User [] [] cPeriodStart cPeriodEnd (by decide)).2.2.2⟩
